import Mathlib

/-!
Verification of the FacePassIR liveness/authentication core.

This file gives a shallow embedding, in Lean 4, of the decision logic of the
repository's liveness engine (`pkg/liveness/detector.go`, second revision of
the package in that file, the one the claims reference), of the recognition
helpers (`DlibRecognizer` in the recognition package), and of the PAM
authentication pipeline (`pkg/pam/auth.go`).  Go `float32`/`float64` values
are idealised as real numbers (ℝ); Go slices become Lean lists; the Go
`map[string]bool` of check outcomes becomes an association list whose lookup
defaults to `false`, matching Go's zero-value map read semantics.  Wall-clock
durations and log output are not modelled.  Theorems about the spec claims
follow the definitions.
-/

namespace Liveness

/-- A 2D landmark point (source: `liveness.Point`). -/
structure Point where
  x : ℝ
  y : ℝ

/-- A captured frame for liveness analysis (source: `liveness.Frame`).
The raw image bytes and timestamp are carried by the Go struct but never read
by the embedded checks, so they are omitted; the embedding is the
`Embedding.Vector` float slice the liveness code reads.  The blink-related
`EyeAspectRatio` field is likewise unused by the second-revision `Detect`
path embedded here and is omitted. -/
structure Frame where
  embedding : List ℝ
  landmarks : List Point
  isIR : Bool
  faceFound : Bool

/-- Liveness configuration (source: `liveness.Config`, second revision). -/
structure Config where
  level : String
  require3D : Bool
  requireConsistency : Bool
  requireChallenge : Bool
  enableIRAnalysis : Bool
  enableTexture : Bool
  minScore : ℝ
  maxTime : ℤ
  movementThreshold : ℝ
  depthThreshold : ℝ
  consistencyThreshold : ℝ

/-- Default liveness configuration (source: `liveness.DefaultConfig`). -/
def DefaultConfig : Config where
  level := "standard"
  require3D := true
  requireConsistency := true
  requireChallenge := false
  enableIRAnalysis := false
  enableTexture := false
  minScore := 0.65
  maxTime := 10
  movementThreshold := 0.08
  depthThreshold := 0.00005
  consistencyThreshold := 0.1

/-- The result of a liveness detection run (source: `liveness.Result`).
`checks` is the `map[string]bool` of per-check outcomes, as an association
list; `Duration` is not modelled. -/
structure Result where
  isLive : Bool
  score : ℝ
  checks : List (String × Bool)
  reason : String
  requiresRetry : Bool

/-- Reading a key from the Go `map[string]bool`: a missing key yields the
zero value `false`. -/
def lookupCheck : List (String × Bool) → String → Bool
  | [], _ => false
  | (k', b) :: rest, k => if k' = k then b else lookupCheck rest k

/-- The detector with its thresholds (source: `liveness.LivenessDetector`). -/
structure LivenessDetector where
  config : Config
  blinkThreshold : ℝ
  consistencyMinVar : ℝ
  consistencyMaxVar : ℝ
  movementThreshold : ℝ

/-- Constructor applying the zero-value defaults (source: `liveness.NewDetector`). -/
noncomputable def NewDetector (cfg : Config) : LivenessDetector :=
  let cfg1 := if cfg.movementThreshold = 0 then { cfg with movementThreshold := 0.08 } else cfg
  let cfg2 := if cfg1.depthThreshold = 0 then { cfg1 with depthThreshold := 0.00005 } else cfg1
  let cfg3 := if cfg2.consistencyThreshold = 0 then { cfg2 with consistencyThreshold := 0.1 } else cfg2
  { config := cfg3
    blinkThreshold := 0.2
    consistencyMinVar := 0.001
    consistencyMaxVar := cfg3.consistencyThreshold
    movementThreshold := cfg3.movementThreshold }

/-- Embedding vectors of the frames in which a face was found
(source: `liveness.extractEmbeddings`; the Go code copies
`frame.Embedding.Vector[:]`, guarded by `FaceFound && len > 0`). -/
def extractEmbeddings (frames : List Frame) : List (List ℝ) :=
  (frames.filter (fun f => f.faceFound && decide (0 < f.embedding.length))).map
    (fun f => f.embedding)

/-- Euclidean distance between two embedding slices
(source: `liveness.embeddingDistance`; mismatched lengths yield `1.0`). -/
noncomputable def embeddingDistance (e1 e2 : List ℝ) : ℝ :=
  if e1.length ≠ e2.length then 1.0
  else Real.sqrt ((List.zipWith (fun a b => (a - b) * (a - b)) e1 e2).sum)

/-- Distances between temporally adjacent embeddings: the
`for i := 1; i < len; i++` loops of the consistency/movement checks. -/
noncomputable def adjacentDistances (embeddings : List (List ℝ)) : List ℝ :=
  List.zipWith embeddingDistance embeddings embeddings.tail

/-- Mean of a list of reals, as the Go sum/len loops compute it. -/
noncomputable def listMean (xs : List ℝ) : ℝ :=
  xs.sum / xs.length

/-- Population variance of a list of reals, as the Go loops compute it. -/
noncomputable def listVar (xs : List ℝ) : ℝ :=
  ((xs.map (fun x => (x - listMean xs) * (x - listMean xs))).sum) / xs.length

/-- Frame-to-frame consistency of face embeddings
(source: `LivenessDetector.CheckConsistency`, second revision). -/
noncomputable def CheckConsistency (d : LivenessDetector) (embeddings : List (List ℝ)) : Bool :=
  if embeddings.length < 3 then false
  else
    let distances := adjacentDistances embeddings
    let mean := listMean distances
    let variance := listVar distances
    if variance < d.consistencyMinVar / 10.0 then false
    else if variance > d.consistencyMaxVar then false
    else if mean > 0.6 then false
    else true

/-- Natural micro-movement between frames
(source: `LivenessDetector.DetectMovement`, second revision). -/
noncomputable def DetectMovement (d : LivenessDetector) (frames : List Frame) : Bool :=
  if frames.length < 3 then false
  else
    let embeddings := extractEmbeddings frames
    if embeddings.length < 3 then false
    else
      let avgMovement := (adjacentDistances embeddings).sum / ((embeddings.length : ℝ) - 1)
      if avgMovement > d.movementThreshold ∧ avgMovement < 0.6 then true else false

/-- Face present in at least 70% of the frames
(source: `LivenessDetector.CheckFacePresence`). -/
noncomputable def CheckFacePresence (_d : LivenessDetector) (frames : List Frame) : Bool :=
  if frames.length = 0 then false
  else
    let faceCount := (frames.filter (fun f => f.faceFound)).length
    if ((faceCount : ℝ) / (frames.length : ℝ)) ≥ 0.7 then true else false

/-- Per-frame (yaw, pitch) ratios collected by `Detect3DGeometry`'s loop:
frames need at least 5 landmark points and positive eye separation. -/
noncomputable def geometryRatios (frames : List Frame) : List (ℝ × ℝ) :=
  frames.filterMap (fun frame =>
    match frame.landmarks with
    | p0 :: p1 :: p2 :: p3 :: p4 :: _ =>
      let viewerRightEyeX := (p0.x + p1.x) / 2.0
      let viewerLeftEyeX := (p2.x + p3.x) / 2.0
      let noseX := p4.x
      let viewerRightEyeY := (p0.y + p1.y) / 2.0
      let viewerLeftEyeY := (p2.y + p3.y) / 2.0
      let noseY := p4.y
      let eyeDist := viewerRightEyeX - viewerLeftEyeX
      if eyeDist > 0 then
        let yaw := (noseX - viewerLeftEyeX) / eyeDist
        let eyeMidY := (viewerRightEyeY + viewerLeftEyeY) / 2.0
        let pitch := (noseY - eyeMidY) / eyeDist
        some (yaw, pitch)
      else none
    | _ => none)

/-- 3D geometry / depth check: variance of yaw plus variance of pitch must
exceed the configured depth threshold
(source: `LivenessDetector.Detect3DGeometry`). -/
noncomputable def Detect3DGeometry (d : LivenessDetector) (frames : List Frame) : Bool :=
  if frames.length < 5 then false
  else
    let ratios := geometryRatios frames
    if ratios.length < 5 then false
    else
      let varYaw := listVar (ratios.map (fun r => r.1))
      let varPitch := listVar (ratios.map (fun r => r.2))
      let totalVariance := varYaw + varPitch
      if totalVariance > d.config.depthThreshold then true else false

/-- Comprehensive liveness detection over a frame sequence
(source: `LivenessDetector.Detect`, second revision: the geometry check has
replaced blink detection; `Duration` and logging are not modelled). -/
noncomputable def Detect (d : LivenessDetector) (frames : List Frame) : Result :=
  if frames.length < 3 then
    { isLive := false, score := 0.0, checks := [], reason := "insufficient frames",
      requiresRetry := true }
  else
    -- Check 1: 3D geometry / head pose (weight 0.3)
    let is3D := Detect3DGeometry d frames
    let checks1 := [("3d_geometry", is3D)]
    let scores1 := [if is3D then 1.0 * 0.3 else 0.0]
    let weight1 : ℝ := 0.3
    -- Check 2: frame consistency (weight 0.3), gated by the configuration
    let consistent := CheckConsistency d (extractEmbeddings frames)
    let checks2 := if d.config.requireConsistency
      then checks1 ++ [("consistency", consistent)] else checks1
    let scores2 := if d.config.requireConsistency
      then scores1 ++ [if consistent then 1.0 * 0.3 else 0.0] else scores1
    let weight2 := if d.config.requireConsistency then weight1 + 0.3 else weight1
    -- Check 3: movement (weight 0.2)
    let movementDetected := DetectMovement d frames
    let checks3 := checks2 ++ [("movement", movementDetected)]
    let scores3 := scores2 ++ [if movementDetected then 1.0 * 0.2 else 0.0]
    let weight3 := weight2 + 0.2
    -- Check 4: face presence (weight 0.2)
    let facePresent := CheckFacePresence d frames
    let checks4 := checks3 ++ [("face_present", facePresent)]
    let scores4 := scores3 ++ [if facePresent then 1.0 * 0.2 else 0.0]
    let totalWeight := weight3 + 0.2
    let totalScore := scores4.sum
    let score := if totalWeight > 0 then totalScore / totalWeight else 0.0
    let isLive := if score ≥ d.config.minScore then true else false
    -- Failure reason, selected in priority order over the checks map
    let reasonRetry :=
      if isLive then ("", false)
      else if !(lookupCheck checks4 "3d_geometry") then
        ("face lacks 3D depth/movement (possible 2D photo)", false)
      else if !(lookupCheck checks4 "consistency") then
        ("inconsistent face data (possible photo attack)", false)
      else if !(lookupCheck checks4 "movement") then
        ("no movement detected (possible static image)", false)
      else if !(lookupCheck checks4 "face_present") then
        ("face not consistently visible", true)
      else ("liveness score below threshold", false)
    { isLive := isLive, score := score, checks := checks4,
      reason := reasonRetry.1, requiresRetry := reasonRetry.2 }

/-- Fast liveness check for the quick authentication path
(source: `LivenessDetector.QuickCheck`). -/
noncomputable def QuickCheck (d : LivenessDetector) (frames : List Frame) : Bool × ℝ :=
  if frames.length < 2 then (false, 0.0)
  else
    let embeddings := extractEmbeddings frames
    if embeddings.length < 2 then (false, 0.0)
    else
      let consistent := CheckConsistency d embeddings
      let hasMovement := DetectMovement d frames
      let facePresent := CheckFacePresence d frames
      let score := (0.0 + (if consistent then 0.4 else 0.0))
        + (if hasMovement then 0.3 else 0.0) + (if facePresent then 0.3 else 0.0)
      (if score ≥ 0.6 then true else false, score)

end Liveness

namespace Recognition

/-- Face descriptor: the underlying library's fixed-length 128-dimensional
float vector (Go: `type Descriptor = face.Descriptor`, a type alias for
`[128]float32`, hence an abbreviation here). -/
abbrev Descriptor : Type := Fin 128 → ℝ

/-- A face embedding with metadata (source: `recognition.Embedding`). -/
structure Embedding where
  vector : Descriptor
  quality : ℝ
  angle : String

/-- The largest finite IEEE-754 double, `math.MaxFloat64` = (2^53 − 1)·2^971. -/
noncomputable def maxFloat64 : ℝ := (2 ^ 53 - 1) * 2 ^ 971

/-- Euclidean distance between two descriptors
(source: `recognition.EuclideanDistance`).  The Go function's length guard
(`len(d1) != len(d2)` returning `math.MaxFloat64`) is unreachable because
`Descriptor` is a fixed-length array type, so the embedded definition is the
guard's else branch. -/
noncomputable def EuclideanDistance (d1 d2 : Descriptor) : ℝ :=
  Real.sqrt (∑ i : Fin 128, (d1 i - d2 i) * (d1 i - d2 i))

/-- The zero value `Embedding{}` returned for an empty input list. -/
noncomputable def zeroEmbedding : Embedding :=
  { vector := fun _ => 0, quality := 0, angle := "" }

/-- Average of multiple embeddings (source: `recognition.AverageEmbedding`):
an empty list yields the zero value, a singleton is returned unchanged, and
otherwise every vector component and the quality are summed and divided by
the count, with angle label "averaged". -/
noncomputable def AverageEmbedding (embeddings : List Embedding) : Embedding :=
  match embeddings with
  | [] => zeroEmbedding
  | [e] => e
  | es =>
    { vector := fun i => (es.map (fun e => e.vector i)).sum / (es.length : ℝ)
      quality := (es.map (fun e => e.quality)).sum / (es.length : ℝ)
      angle := "averaged" }

/-- Nearest stored embedding to a probe
(source: `DlibRecognizer.FindBestMatch`): an empty gallery yields the
sentinel `(-1, math.MaxFloat64, false)`; otherwise a fold over the indexed
gallery keeps the strictly smallest distance, starting from index 0 and
`math.MaxFloat64`. -/
noncomputable def FindBestMatch (tolerance : ℝ) (probe : Embedding)
    (gallery : List Embedding) : ℤ × ℝ × Bool :=
  match gallery with
  | [] => (-1, maxFloat64, false)
  | _ =>
    let best := gallery.enum.foldl
      (fun (acc : ℤ × ℝ) (p : ℕ × Embedding) =>
        let dist := EuclideanDistance probe.vector p.2.vector
        if dist < acc.2 then ((p.1 : ℤ), dist) else acc)
      (0, maxFloat64)
    (best.1, best.2, if best.2 < tolerance then true else false)

end Recognition

namespace Pam

/-- Authentication error codes (source: `pam.ErrorCode` constants). -/
inductive ErrorCode where
  | noFace
  | multipleFaces
  | liveness
  | notRecognized
  | camera
  | timeout
  | notEnrolled
deriving DecidableEq

/-- A structured authentication error (source: `pam.AuthError`); the
user-facing message is a fixed function of the code and is not modelled. -/
structure AuthError where
  code : ErrorCode
  retry : Bool
deriving DecidableEq

/-- Result of one top-level authentication call (source: `pam.AuthResult`);
`Duration` is not modelled. -/
structure AuthResult where
  success : Bool
  error : Option AuthError
  attempts : ℕ
  reason : String
  username : String
  confidence : ℝ

/-- Outcome of one `captureFramesForLiveness` call: a frame batch, a failure
whose context error is a deadline expiry, or any other capture failure. -/
inductive CaptureOutcome where
  | ok (frames : List Liveness.Frame)
  | timeoutErr
  | otherErr

/-- Externally observable interactions of one `Authenticate` call with the
camera, the liveness engine, the matcher and the store, in program order.
`captureBatch k` stands for the whole `captureFramesForLiveness` call of
attempt `k` (its camera reads included). -/
inductive AuthEvent where
  | enableIR
  | startStreaming
  | captureBatch (attempt : ℕ)
  | livenessCall (attempt : ℕ)
  | matchCall (attempt : ℕ)
  | updateLastUsed
  | stopStreaming
  | disableIR
deriving DecidableEq

/-- The collaborators of `PAMAuthenticator`, as response oracles: the Go
struct holds them as interface values (`Storage`, `Camera`,
`LivenessChecker`, `Recognizer`), so the pipeline is specified for any
implementation.  `ctxDone k` is whether the shared deadline has elapsed when
attempt `k` begins; `capture k` is the outcome of attempt `k`'s
`captureFramesForLiveness`; `findBestMatch` bundles the recognizer with the
loaded user's gallery (`userData.Embeddings`), which is fixed for the call. -/
structure AuthEnv where
  userExists : Bool
  loadUserOk : Bool
  hasIR : Bool
  ctxDone : ℕ → Bool
  capture : ℕ → CaptureOutcome
  detect : List Liveness.Frame → Liveness.Result
  findBestMatch : List ℝ → ℤ × ℝ × Bool

/-- Component-wise mean of equal-length vectors: the `Vector` field computed
by `recognition.AverageEmbedding` (a singleton is returned unchanged, which
for the vector coincides with the mean of one). -/
noncomputable def averageVector (vs : List (List ℝ)) : List ℝ :=
  match vs with
  | [] => []
  | v0 :: _ =>
    (List.range v0.length).map
      (fun i => (vs.map (fun v => v.getD i 0)).sum / (vs.length : ℝ))

/-- Averaged probe embedding from the frames in which a face was found
(source: `PAMAuthenticator.getBestEmbedding`): fails when no frame carries an
embedding; otherwise the embeddings' average (vector part). -/
noncomputable def getBestEmbedding (frames : List Liveness.Frame) : Option (List ℝ) :=
  let embeddings := (frames.filter
    (fun f => f.faceFound && decide (0 < f.embedding.length))).map (fun f => f.embedding)
  if embeddings.length = 0 then none
  else some (averageVector embeddings)

/-- The per-attempt loop of `PAMAuthenticator.Authenticate`, recursing on the
remaining attempts (`attempt` is the 1-based loop counter; fuel `0` is loop
exhaustion, where the last value written to `result.Attempts` was
`attempt − 1`).  Returns the result together with the trace of observable
events the loop produced. -/
noncomputable def authLoop (env : AuthEnv) (username : String) :
    ℕ → ℕ → AuthResult × List AuthEvent
  | attempt, 0 =>
    ({ success := false, error := some ⟨ErrorCode.notRecognized, false⟩,
       attempts := attempt - 1, reason := "face not recognized after maximum attempts",
       username := username, confidence := 0 }, [])
  | attempt, fuel + 1 =>
    if env.ctxDone attempt then
      ({ success := false, error := some ⟨ErrorCode.timeout, false⟩,
         attempts := attempt, reason := "authentication timed out",
         username := username, confidence := 0 }, [])
    else
      match env.capture attempt with
      | CaptureOutcome.timeoutErr =>
        ({ success := false, error := some ⟨ErrorCode.timeout, false⟩,
           attempts := attempt, reason := "authentication timed out",
           username := username, confidence := 0 }, [AuthEvent.captureBatch attempt])
      | CaptureOutcome.otherErr =>
        let rest := authLoop env username (attempt + 1) fuel
        (rest.1, AuthEvent.captureBatch attempt :: rest.2)
      | CaptureOutcome.ok frames =>
        let livenessResult := env.detect frames
        if livenessResult.isLive = false then
          if livenessResult.requiresRetry = false then
            ({ success := false, error := some ⟨ErrorCode.liveness, false⟩,
               attempts := attempt, reason := livenessResult.reason,
               username := username, confidence := 0 },
             [AuthEvent.captureBatch attempt, AuthEvent.livenessCall attempt])
          else
            let rest := authLoop env username (attempt + 1) fuel
            (rest.1, AuthEvent.captureBatch attempt :: AuthEvent.livenessCall attempt :: rest.2)
        else
          match getBestEmbedding frames with
          | none =>
            let rest := authLoop env username (attempt + 1) fuel
            (rest.1, AuthEvent.captureBatch attempt :: AuthEvent.livenessCall attempt :: rest.2)
          | some embedding =>
            let m := env.findBestMatch embedding
            if m.2.2 = true then
              ({ success := true, error := none, attempts := attempt, reason := "",
                 username := username, confidence := 1.0 - m.2.1 },
               [AuthEvent.captureBatch attempt, AuthEvent.livenessCall attempt,
                AuthEvent.matchCall attempt, AuthEvent.updateLastUsed])
            else
              let rest := authLoop env username (attempt + 1) fuel
              (rest.1, AuthEvent.captureBatch attempt :: AuthEvent.livenessCall attempt ::
                AuthEvent.matchCall attempt :: rest.2)

/-- One `Authenticate` call (source: `PAMAuthenticator.Authenticate`): the
enrollment check runs before any camera interaction; then IR illumination is
enabled when available, streaming starts, the attempt loop runs, and the
deferred cleanup (stop streaming, then disable the IR emitter) closes every
exit path that reached setup. -/
noncomputable def Authenticate (env : AuthEnv) (username : String)
    (maxAttempts : ℕ) : AuthResult × List AuthEvent :=
  if env.userExists = false then
    ({ success := false, error := some ⟨ErrorCode.notEnrolled, false⟩,
       attempts := 0, reason := "user not enrolled",
       username := username, confidence := 0 }, [])
  else if env.loadUserOk = false then
    ({ success := false, error := some ⟨ErrorCode.notEnrolled, false⟩,
       attempts := 0, reason := "failed to load user data",
       username := username, confidence := 0 }, [])
  else
    let setup := (if env.hasIR then [AuthEvent.enableIR] else []) ++ [AuthEvent.startStreaming]
    let run := authLoop env username 1 maxAttempts
    (run.1, setup ++ run.2 ++ [AuthEvent.stopStreaming, AuthEvent.disableIR])

end Pam

/-! Concrete inputs used to evaluate the embedded program on closed terms. -/

/-- The detector produced by `NewDetector` from the default configuration
(all three configured thresholds are non-zero, so they are kept). -/
noncomputable def defaultDetector : Liveness.LivenessDetector where
  config := Liveness.DefaultConfig
  blinkThreshold := 0.2
  consistencyMinVar := 0.001
  consistencyMaxVar := 0.1
  movementThreshold := 0.08

/-- A frame with no detected face, no landmarks and an empty embedding. -/
def emptyFrame : Liveness.Frame where
  embedding := []
  landmarks := []
  isIR := false
  faceFound := false

/-- Three faceless frames: a minimal batch accepted by `Detect`. -/
def threeEmptyFrames : List Liveness.Frame := List.replicate 3 emptyFrame

/-- A frame whose face was found, carrying a one-component embedding slice. -/
noncomputable def slideFrame (x : ℝ) : Liveness.Frame where
  embedding := [x]
  landmarks := []
  isIR := false
  faceFound := true

/-- Five frames whose embeddings drift by 0.1 per frame: adjacent distances
are all 0.1, so movement is plausible and a face is present throughout. -/
noncomputable def slideFrames : List Liveness.Frame :=
  [slideFrame 0, slideFrame 0.1, slideFrame 0.2, slideFrame 0.3, slideFrame 0.4]

/-- A frame with a fixed embedding, for the identical-embeddings batch. -/
noncomputable def constFrame : Liveness.Frame where
  embedding := [0]
  landmarks := []
  isIR := false
  faceFound := true

/-- Five identical frames: zero inter-frame variance and distance. -/
noncomputable def constFrames : List Liveness.Frame := List.replicate 5 constFrame

/-- The default configuration with the consistency check disabled. -/
noncomputable def noConsistencyCfg : Liveness.Config :=
  { Liveness.DefaultConfig with requireConsistency := false }

/-- The detector `NewDetector` builds from `noConsistencyCfg`. -/
noncomputable def noConsistencyDetector : Liveness.LivenessDetector where
  config := noConsistencyCfg
  blinkThreshold := 0.2
  consistencyMinVar := 0.001
  consistencyMaxVar := 0.1
  movementThreshold := 0.08

/-- A faceless frame with five landmarks: eyes fixed at x = 2 and x = 0,
nose at the given horizontal position. -/
noncomputable def noseFrame (x : ℝ) : Liveness.Frame where
  embedding := []
  landmarks := [⟨2, 0⟩, ⟨2, 0⟩, ⟨0, 0⟩, ⟨0, 0⟩, ⟨x, 0⟩]
  isIR := false
  faceFound := false

/-- Five faceless frames whose nose position oscillates: the geometry check
passes (yaw variance 0.0096) while no embedding is ever extracted, so the
movement and face-presence checks fail and the consistency check is skipped
when disabled. -/
noncomputable def noseFrames : List Liveness.Frame :=
  [noseFrame 0.8, noseFrame 1.2, noseFrame 0.8, noseFrame 1.2, noseFrame 0.8]

/-- A liveness verdict flagging a suspected spoof: not live, not retryable. -/
def spoofVerdict : Liveness.Result where
  isLive := false
  score := 0
  checks := [("3d_geometry", false)]
  reason := "face lacks 3D depth/movement (possible 2D photo)"
  requiresRetry := false

/-- A retryable liveness failure: the face was not consistently visible. -/
def retryVerdict : Liveness.Result where
  isLive := false
  score := 0
  checks := [("face_present", false)]
  reason := "face not consistently visible"
  requiresRetry := true

/-- An environment for a user with no gallery entry. -/
def notEnrolledEnv : Pam.AuthEnv where
  userExists := false
  loadUserOk := true
  hasIR := true
  ctxDone := fun _ => false
  capture := fun _ => Pam.CaptureOutcome.ok []
  detect := fun _ => spoofVerdict
  findBestMatch := fun _ => (0, 0, false)

/-- An enrolled user whose every capture is judged a spoof by the liveness
engine: the deadline never fires and capture always succeeds. -/
def spoofEnv : Pam.AuthEnv where
  userExists := true
  loadUserOk := true
  hasIR := false
  ctxDone := fun _ => false
  capture := fun _ => Pam.CaptureOutcome.ok (List.replicate 5 emptyFrame)
  detect := fun _ => spoofVerdict
  findBestMatch := fun _ => (0, 0, false)

/-- Like `spoofEnv`, but the liveness engine reports a retryable failure. -/
def retryEnv : Pam.AuthEnv where
  userExists := true
  loadUserOk := true
  hasIR := false
  ctxDone := fun _ => false
  capture := fun _ => Pam.CaptureOutcome.ok (List.replicate 5 emptyFrame)
  detect := fun _ => retryVerdict
  findBestMatch := fun _ => (0, 0, false)

/-! ### Theorems -/

/-- Sanity check: `defaultDetector` is exactly what `NewDetector` builds from
the default configuration. -/
theorem defaultDetector_eq_newDetector :
    defaultDetector = Liveness.NewDetector Liveness.DefaultConfig := by
  unfold Liveness.NewDetector defaultDetector
  norm_num [Liveness.DefaultConfig]

/-- The distance of an embedding slice to itself is zero. -/
theorem embeddingDistance_self (v : List ℝ) : Liveness.embeddingDistance v v = 0 := by
  unfold Liveness.embeddingDistance
  rw [if_neg (by simp)]
  have hsum : (List.zipWith (fun a b => (a - b) * (a - b)) v v).sum = 0 := by
    induction v with
    | nil => simp
    | cons a t ih => simp [ih]
  rw [hsum, Real.sqrt_zero]

/-- C2: for every observation batch with fewer than 3 entries, `Detect`
returns `isLive = false`, reason `"insufficient frames"` and
`requiresRetry = true`, with score 0 and an empty checks map (the early
return performs no further computation). -/
theorem detect_insufficient_frames (d : Liveness.LivenessDetector)
    (frames : List Liveness.Frame) (h : frames.length < 3) :
    Liveness.Detect d frames =
      { isLive := false, score := 0.0, checks := [], reason := "insufficient frames",
        requiresRetry := true } := by
  unfold Liveness.Detect
  rw [if_pos h]

/-- Witness for `detect_insufficient_frames` at the empty batch. -/
theorem detect_insufficient_frames_witness :
    ([] : List Liveness.Frame).length < 3 ∧
    Liveness.Detect defaultDetector [] =
      { isLive := false, score := 0.0, checks := [], reason := "insufficient frames",
        requiresRetry := true } :=
  ⟨by decide, detect_insufficient_frames defaultDetector [] (by decide)⟩

/-- C9: `FindBestMatch` over an empty gallery returns the sentinel no-match
triple: index −1, the maximum representable distance, `matched = false`, for
every probe embedding and tolerance. -/
theorem findBestMatch_empty_gallery (tolerance : ℝ) (probe : Recognition.Embedding) :
    Recognition.FindBestMatch tolerance probe [] =
      (-1, Recognition.maxFloat64, false) := rfl

/-- C5: when the gallery store reports no enrollment, `Authenticate` returns
immediately with `success = false` and a non-retryable NotEnrolled error, and
the event trace is empty: no illumination, streaming, capture or read calls
occur. -/
theorem authenticate_not_enrolled (env : Pam.AuthEnv) (username : String)
    (maxAttempts : ℕ) (h : env.userExists = false) :
    Pam.Authenticate env username maxAttempts =
      ({ success := false, error := some ⟨Pam.ErrorCode.notEnrolled, false⟩,
         attempts := 0, reason := "user not enrolled",
         username := username, confidence := 0 }, []) := by
  unfold Pam.Authenticate
  rw [if_pos h]

/-- Witness for `authenticate_not_enrolled` on a concrete environment. -/
theorem authenticate_not_enrolled_witness :
    notEnrolledEnv.userExists = false ∧
    Pam.Authenticate notEnrolledEnv "alice" 3 =
      ({ success := false, error := some ⟨Pam.ErrorCode.notEnrolled, false⟩,
         attempts := 0, reason := "user not enrolled",
         username := "alice", confidence := 0 }, []) :=
  ⟨rfl, authenticate_not_enrolled notEnrolledEnv "alice" 3 rfl⟩

/-- C4: if on some attempt the liveness engine reports not-live and
non-retryable (a flagged attack), the attempt loop returns immediately with
that reason and a non-retryable LivenessFailed error, producing no further
capture, liveness or match events; if the failure is retryable, the loop
proceeds to the next attempt.  The second conjunct lifts the non-retryable
case to a whole `Authenticate` call whose first attempt is flagged: the call
ends after attempt 1 with only that attempt's events plus setup/cleanup. -/
theorem authenticate_spoof_terminates :
    (∀ (env : Pam.AuthEnv) (username : String) (attempt fuel : ℕ)
       (frames : List Liveness.Frame),
       env.ctxDone attempt = false →
       env.capture attempt = Pam.CaptureOutcome.ok frames →
       (env.detect frames).isLive = false →
       (((env.detect frames).requiresRetry = false →
          Pam.authLoop env username attempt (fuel + 1) =
            ({ success := false, error := some ⟨Pam.ErrorCode.liveness, false⟩,
               attempts := attempt, reason := (env.detect frames).reason,
               username := username, confidence := 0 },
             [Pam.AuthEvent.captureBatch attempt, Pam.AuthEvent.livenessCall attempt]))
        ∧ ((env.detect frames).requiresRetry = true →
          Pam.authLoop env username attempt (fuel + 1) =
            ((Pam.authLoop env username (attempt + 1) fuel).1,
             Pam.AuthEvent.captureBatch attempt :: Pam.AuthEvent.livenessCall attempt ::
               (Pam.authLoop env username (attempt + 1) fuel).2))))
  ∧ (∀ (env : Pam.AuthEnv) (username : String) (fuel : ℕ)
       (frames : List Liveness.Frame),
       env.userExists = true → env.loadUserOk = true →
       env.ctxDone 1 = false → env.capture 1 = Pam.CaptureOutcome.ok frames →
       (env.detect frames).isLive = false → (env.detect frames).requiresRetry = false →
       Pam.Authenticate env username (fuel + 1) =
         ({ success := false, error := some ⟨Pam.ErrorCode.liveness, false⟩,
            attempts := 1, reason := (env.detect frames).reason,
            username := username, confidence := 0 },
          (if env.hasIR then [Pam.AuthEvent.enableIR] else []) ++
            [Pam.AuthEvent.startStreaming, Pam.AuthEvent.captureBatch 1,
             Pam.AuthEvent.livenessCall 1, Pam.AuthEvent.stopStreaming,
             Pam.AuthEvent.disableIR])) := by
  have main : ∀ (env : Pam.AuthEnv) (username : String) (attempt fuel : ℕ)
      (frames : List Liveness.Frame),
      env.ctxDone attempt = false →
      env.capture attempt = Pam.CaptureOutcome.ok frames →
      (env.detect frames).isLive = false →
      (((env.detect frames).requiresRetry = false →
         Pam.authLoop env username attempt (fuel + 1) =
           ({ success := false, error := some ⟨Pam.ErrorCode.liveness, false⟩,
              attempts := attempt, reason := (env.detect frames).reason,
              username := username, confidence := 0 },
            [Pam.AuthEvent.captureBatch attempt, Pam.AuthEvent.livenessCall attempt]))
       ∧ ((env.detect frames).requiresRetry = true →
         Pam.authLoop env username attempt (fuel + 1) =
           ((Pam.authLoop env username (attempt + 1) fuel).1,
            Pam.AuthEvent.captureBatch attempt :: Pam.AuthEvent.livenessCall attempt ::
              (Pam.authLoop env username (attempt + 1) fuel).2))) := by
    intro env username attempt fuel frames hctx hcap hlive
    constructor
    · intro hretry
      conv_lhs => rw [Pam.authLoop]
      simp [hctx, hcap, hlive, hretry]
    · intro hretry
      conv_lhs => rw [Pam.authLoop]
      simp [hctx, hcap, hlive, hretry]
  refine ⟨main, ?_⟩
  intro env username fuel frames hue hlu hctx hcap hlive hretry
  have hloop := (main env username 1 fuel frames hctx hcap hlive).1 hretry
  unfold Pam.Authenticate
  simp [hue, hlu, hloop]

/-- Witness for `authenticate_spoof_terminates`: a flagged attack on attempt
1 of 3 stops the loop at once, while a retryable failure recurses into
attempt 2. -/
theorem authenticate_spoof_terminates_witness :
    Pam.authLoop spoofEnv "alice" 1 3 =
      ({ success := false, error := some ⟨Pam.ErrorCode.liveness, false⟩, attempts := 1,
         reason := "face lacks 3D depth/movement (possible 2D photo)",
         username := "alice", confidence := 0 },
       [Pam.AuthEvent.captureBatch 1, Pam.AuthEvent.livenessCall 1])
    ∧ Pam.authLoop retryEnv "alice" 1 3 =
      ((Pam.authLoop retryEnv "alice" 2 2).1,
       Pam.AuthEvent.captureBatch 1 :: Pam.AuthEvent.livenessCall 1 ::
         (Pam.authLoop retryEnv "alice" 2 2).2) := by
  constructor
  · exact (authenticate_spoof_terminates.1 spoofEnv "alice" 1 2
      (List.replicate 5 emptyFrame) rfl rfl rfl).1 rfl
  · exact (authenticate_spoof_terminates.1 retryEnv "alice" 1 2
      (List.replicate 5 emptyFrame) rfl rfl rfl).2 rfl

/-- A Boolean written `if P then true else false` is `true` exactly when `P`
holds. -/
theorem iteTF_eq_true_iff {P : Prop} [Decidable P] :
    ((if P then true else false) = true) ↔ P := by
  split_ifs with h <;> simp [h]

/-- C8: `EuclideanDistance` is symmetric, and zero exactly for identical
descriptors; `AverageEmbedding` of a singleton returns that embedding
unchanged, and of a two-element list returns the per-component mean of the
two vectors. -/
theorem euclideanDistance_averageEmbedding_spec :
    (∀ a b : Recognition.Descriptor,
       Recognition.EuclideanDistance a b = Recognition.EuclideanDistance b a)
  ∧ (∀ a b : Recognition.Descriptor, Recognition.EuclideanDistance a b = 0 ↔ a = b)
  ∧ (∀ e : Recognition.Embedding, Recognition.AverageEmbedding [e] = e)
  ∧ (∀ e1 e2 : Recognition.Embedding, ∀ i : Fin 128,
       (Recognition.AverageEmbedding [e1, e2]).vector i =
         (e1.vector i + e2.vector i) / 2) := by
  refine ⟨?_, ?_, ?_, ?_⟩
  · intro a b
    unfold Recognition.EuclideanDistance
    congr 1
    exact Finset.sum_congr rfl fun i _ => by ring
  · intro a b
    unfold Recognition.EuclideanDistance
    rw [show (0 : ℝ) = Real.sqrt 0 by rw [Real.sqrt_zero]]
    rw [Real.sqrt_inj (Finset.sum_nonneg fun i _ => mul_self_nonneg _) le_rfl]
    rw [Finset.sum_eq_zero_iff_of_nonneg fun i _ => mul_self_nonneg _]
    constructor
    · intro hz
      funext i
      have hi := hz i (Finset.mem_univ i)
      rw [mul_self_eq_zero, sub_eq_zero] at hi
      exact hi
    · intro hab i _
      rw [hab]
      ring
  · intro e
    rfl
  · intro e1 e2 i
    show ((([e1, e2].map (fun e => e.vector i)).sum) / (([e1, e2].length : ℕ) : ℝ)) = _
    simp

/-- C1: for a batch of at least 3 frames, the score `Detect` returns is the
weighted sum of the check outcomes (0.3 geometry, 0.3 consistency, 0.2
movement, 0.2 presence, each contributing its weight when passed and 0 when
failed) divided by the sum of the weights of the checks actually evaluated —
a disabled consistency check contributes to neither numerator nor
denominator — and `isLive` holds exactly when that score reaches the
configured minimum score. -/
theorem detect_score_weighted_sum (d : Liveness.LivenessDetector)
    (frames : List Liveness.Frame) (h : 3 ≤ frames.length) :
    (Liveness.Detect d frames).score =
      ((if Liveness.Detect3DGeometry d frames then (0.3 : ℝ) else 0)
        + (if d.config.requireConsistency then
            (if Liveness.CheckConsistency d (Liveness.extractEmbeddings frames)
              then (0.3 : ℝ) else 0) else 0)
        + (if Liveness.DetectMovement d frames then (0.2 : ℝ) else 0)
        + (if Liveness.CheckFacePresence d frames then (0.2 : ℝ) else 0))
      / ((0.3 : ℝ) + (if d.config.requireConsistency then (0.3 : ℝ) else 0) + 0.2 + 0.2)
    ∧ ((Liveness.Detect d frames).isLive = true ↔
       (Liveness.Detect d frames).score ≥ d.config.minScore) := by
  have h3 : ¬ frames.length < 3 := by omega
  constructor
  · unfold Liveness.Detect
    rw [if_neg h3]
    simp only []
    cases hrc : d.config.requireConsistency <;>
      cases hg : Liveness.Detect3DGeometry d frames <;>
      cases hc : Liveness.CheckConsistency d (Liveness.extractEmbeddings frames) <;>
      cases hm : Liveness.DetectMovement d frames <;>
      cases hp : Liveness.CheckFacePresence d frames <;>
      norm_num
  · unfold Liveness.Detect
    rw [if_neg h3]
    simp only []
    exact iteTF_eq_true_iff

/-- Witness for `detect_score_weighted_sum` at a minimal 3-frame batch. -/
theorem detect_score_weighted_sum_witness :
    3 ≤ threeEmptyFrames.length ∧
    ((Liveness.Detect defaultDetector threeEmptyFrames).isLive = true ↔
      (Liveness.Detect defaultDetector threeEmptyFrames).score ≥
        defaultDetector.config.minScore) :=
  ⟨by simp [threeEmptyFrames],
   (detect_score_weighted_sum defaultDetector threeEmptyFrames
     (by simp [threeEmptyFrames])).2⟩

/-- Distance between two one-component embedding slices is the absolute
difference. -/
theorem embeddingDistance_single (a b : ℝ) :
    Liveness.embeddingDistance [a] [b] = |a - b| := by
  unfold Liveness.embeddingDistance
  rw [if_neg (by simp)]
  have hz : List.zipWith (fun x y => (x - y) * (x - y)) [a] [b] = [(a - b) * (a - b)] := rfl
  rw [hz]
  simp only [List.sum_cons, List.sum_nil, add_zero]
  rw [← sq, Real.sqrt_sq_eq_abs]

/-- A detector only reports movement when at least 3 embeddings were
extracted. -/
theorem detectMovement_extract_length (d : Liveness.LivenessDetector)
    (frames : List Liveness.Frame) (h : Liveness.DetectMovement d frames = true) :
    3 ≤ (Liveness.extractEmbeddings frames).length := by
  unfold Liveness.DetectMovement at h
  split_ifs at h with h1
  simp at h
  exact h.1

/-- C6: `quickCheck` evaluates only the consistency, movement and
face-presence checks, weighted 0.4/0.3/0.3, and reports liveness exactly when
the resulting score is at least 0.6; in particular a 5-observation batch with
plausible movement and sufficient face presence is declared live with score
at least 0.6 regardless of the consistency outcome. -/
theorem quickCheck_spec :
    (∀ (d : Liveness.LivenessDetector) (frames : List Liveness.Frame),
       2 ≤ frames.length → 2 ≤ (Liveness.extractEmbeddings frames).length →
       (Liveness.QuickCheck d frames).2 =
         (if Liveness.CheckConsistency d (Liveness.extractEmbeddings frames)
            then (0.4 : ℝ) else 0)
         + (if Liveness.DetectMovement d frames then (0.3 : ℝ) else 0)
         + (if Liveness.CheckFacePresence d frames then (0.3 : ℝ) else 0))
  ∧ (∀ (d : Liveness.LivenessDetector) (frames : List Liveness.Frame),
       (Liveness.QuickCheck d frames).1 = true ↔
         (Liveness.QuickCheck d frames).2 ≥ 0.6)
  ∧ (∀ (d : Liveness.LivenessDetector) (frames : List Liveness.Frame),
       frames.length = 5 → Liveness.DetectMovement d frames = true →
       Liveness.CheckFacePresence d frames = true →
       (Liveness.QuickCheck d frames).1 = true ∧
         (Liveness.QuickCheck d frames).2 ≥ 0.6) := by
  have hscore : ∀ (d : Liveness.LivenessDetector) (frames : List Liveness.Frame),
      2 ≤ frames.length → 2 ≤ (Liveness.extractEmbeddings frames).length →
      (Liveness.QuickCheck d frames).2 =
        (if Liveness.CheckConsistency d (Liveness.extractEmbeddings frames)
           then (0.4 : ℝ) else 0)
        + (if Liveness.DetectMovement d frames then (0.3 : ℝ) else 0)
        + (if Liveness.CheckFacePresence d frames then (0.3 : ℝ) else 0) := by
    intro d frames h1 h2
    unfold Liveness.QuickCheck
    rw [if_neg (by omega), if_neg (by omega)]
    simp only []
    ring_nf
  have hlive : ∀ (d : Liveness.LivenessDetector) (frames : List Liveness.Frame),
      (Liveness.QuickCheck d frames).1 = true ↔
        (Liveness.QuickCheck d frames).2 ≥ 0.6 := by
    intro d frames
    by_cases h1 : frames.length < 2
    · simp only [Liveness.QuickCheck, if_pos h1]
      norm_num
    · by_cases h2 : (Liveness.extractEmbeddings frames).length < 2
      · simp only [Liveness.QuickCheck, if_neg h1, if_pos h2]
        norm_num
      · simp only [Liveness.QuickCheck, if_neg h1, if_neg h2]
        exact iteTF_eq_true_iff
  refine ⟨hscore, hlive, ?_⟩
  intro d frames h5 hmov hpres
  have hemb : 3 ≤ (Liveness.extractEmbeddings frames).length :=
    detectMovement_extract_length d frames hmov
  have hs := hscore d frames (by omega) (by omega)
  have hge : (Liveness.QuickCheck d frames).2 ≥ 0.6 := by
    rw [hs, hmov, hpres]
    norm_num
    split_ifs <;> norm_num
  exact ⟨(hlive d frames).mpr hge, hge⟩

/-- The embeddings extracted from the drifting batch. -/
theorem slideFrames_extract :
    Liveness.extractEmbeddings slideFrames =
      [[0], [0.1], [0.2], [0.3], [0.4]] := by
  simp [Liveness.extractEmbeddings, slideFrames, slideFrame]

/-- The drifting batch exhibits plausible movement: each adjacent distance is
0.1, so the average movement 0.1 lies strictly between the default movement
threshold 0.08 and the ceiling 0.6. -/
theorem slideFrames_movement :
    Liveness.DetectMovement defaultDetector slideFrames = true := by
  unfold Liveness.DetectMovement
  rw [if_neg (by simp [slideFrames])]
  simp only [slideFrames_extract]
  rw [if_neg (by simp)]
  have hd : Liveness.adjacentDistances [[0], [0.1], [0.2], [0.3], [0.4]] =
      [|(0 : ℝ) - 0.1|, |(0.1 : ℝ) - 0.2|, |(0.2 : ℝ) - 0.3|, |(0.3 : ℝ) - 0.4|] := by
    show [Liveness.embeddingDistance [0] [0.1], Liveness.embeddingDistance [0.1] [0.2],
      Liveness.embeddingDistance [0.2] [0.3], Liveness.embeddingDistance [0.3] [0.4]] = _
    rw [embeddingDistance_single, embeddingDistance_single,
      embeddingDistance_single, embeddingDistance_single]
  simp only [hd]
  rw [if_pos]
  have h1 : |(0 : ℝ) - 0.1| = 0.1 := by rw [abs_sub_comm]; rw [abs_of_nonneg] <;> norm_num
  have h2 : |(0.1 : ℝ) - 0.2| = 0.1 := by rw [abs_sub_comm]; rw [abs_of_nonneg] <;> norm_num
  have h3 : |(0.2 : ℝ) - 0.3| = 0.1 := by rw [abs_sub_comm]; rw [abs_of_nonneg] <;> norm_num
  have h4 : |(0.3 : ℝ) - 0.4| = 0.1 := by rw [abs_sub_comm]; rw [abs_of_nonneg] <;> norm_num
  rw [List.sum_cons, List.sum_cons, List.sum_cons, List.sum_cons, List.sum_nil,
    h1, h2, h3, h4]
  constructor
  · show (0.08 : ℝ) < (0.1 + (0.1 + (0.1 + (0.1 + 0)))) / ((5 : ℕ) - 1)
    norm_num
  · show (0.1 + (0.1 + (0.1 + (0.1 + 0)))) / ((5 : ℕ) - 1) < (0.6 : ℝ)
    norm_num

/-- A face is present in every frame of the drifting batch. -/
theorem slideFrames_presence :
    Liveness.CheckFacePresence defaultDetector slideFrames = true := by
  unfold Liveness.CheckFacePresence
  rw [if_neg (by simp [slideFrames])]
  rw [if_pos]
  show ((List.filter _ slideFrames).length : ℝ) / ((slideFrames.length : ℕ) : ℝ) ≥ 0.7
  norm_num [slideFrames, slideFrame]

/-- Witness for `quickCheck_spec`: five drifting observations with plausible
movement and full face presence are declared live with score at least 0.6. -/
theorem quickCheck_spec_witness :
    slideFrames.length = 5 ∧
    Liveness.DetectMovement defaultDetector slideFrames = true ∧
    Liveness.CheckFacePresence defaultDetector slideFrames = true ∧
    (Liveness.QuickCheck defaultDetector slideFrames).1 = true ∧
    (Liveness.QuickCheck defaultDetector slideFrames).2 ≥ 0.6 := by
  have h5 : slideFrames.length = 5 := by simp [slideFrames]
  have h := quickCheck_spec.2.2 defaultDetector slideFrames h5
    slideFrames_movement slideFrames_presence
  exact ⟨h5, slideFrames_movement, slideFrames_presence, h.1, h.2⟩

/-- Adjacent distances over a constant embedding list are all zero. -/
theorem adjacentDistances_const (v : List ℝ) :
    ∀ (l : List (List ℝ)), (∀ e ∈ l, e = v) →
      ∀ x ∈ Liveness.adjacentDistances l, x = 0 := by
  intro l
  induction l with
  | nil =>
    intro _ x hx
    simp [Liveness.adjacentDistances] at hx
  | cons a t ih =>
    intro hall x hx
    cases t with
    | nil => simp [Liveness.adjacentDistances] at hx
    | cons b t2 =>
      have hstep : Liveness.adjacentDistances (a :: b :: t2) =
          Liveness.embeddingDistance a b :: Liveness.adjacentDistances (b :: t2) := rfl
      rw [hstep, List.mem_cons] at hx
      rcases hx with hx | hx
      · have ha : a = v := hall a (by simp)
        have hb : b = v := hall b (by simp)
        rw [hx, ha, hb]
        exact embeddingDistance_self v
      · exact ih (fun e he => hall e (List.mem_cons_of_mem a he)) x hx

/-- The mean of an all-zero list is zero. -/
theorem listMean_zero {xs : List ℝ} (h : ∀ x ∈ xs, x = 0) :
    Liveness.listMean xs = 0 := by
  unfold Liveness.listMean
  rw [List.sum_eq_zero h, zero_div]

/-- The variance of an all-zero list is zero. -/
theorem listVar_zero {xs : List ℝ} (h : ∀ x ∈ xs, x = 0) :
    Liveness.listVar xs = 0 := by
  unfold Liveness.listVar
  have hz : ∀ y ∈ xs.map (fun x => (x - Liveness.listMean xs) * (x - Liveness.listMean xs)),
      y = 0 := by
    intro y hy
    rcases List.mem_map.mp hy with ⟨x, hx, rfl⟩
    rw [h x hx, listMean_zero h, sub_zero, mul_zero]
  rw [List.sum_eq_zero hz, zero_div]

/-- Extracted embeddings of frames whose embeddings all equal `v` are `v`. -/
theorem extractEmbeddings_const {frames : List Liveness.Frame} {v : List ℝ}
    (hall : ∀ f ∈ frames, f.embedding = v) :
    ∀ e ∈ Liveness.extractEmbeddings frames, e = v := by
  intro e he
  unfold Liveness.extractEmbeddings at he
  rcases List.mem_map.mp he with ⟨f, hf, rfl⟩
  exact hall f (List.mem_of_mem_filter hf)

/-- The first component of a five-way conditional chain differs from `s`
when every candidate's first component does. -/
theorem ite_chain_fst_ne (P1 P2 P3 P4 P5 : Prop) [Decidable P1] [Decidable P2]
    [Decidable P3] [Decidable P4] [Decidable P5] (a0 a1 a2 a3 a4 a5 : String × Bool)
    (s : String) (h0 : a0.1 ≠ s) (h1 : a1.1 ≠ s) (h2 : a2.1 ≠ s) (h3 : a3.1 ≠ s)
    (h4 : a4.1 ≠ s) (h5 : a5.1 ≠ s) :
    (if P1 then a0 else if P2 then a1 else if P3 then a2 else if P4 then a3
      else if P5 then a4 else a5).1 ≠ s := by
  split_ifs <;> assumption

/-- Whatever `Detect` decides on a batch of at least 3 frames, the reported
reason is never the insufficient-frames one. -/
theorem detect_reason_of_enough_frames (d : Liveness.LivenessDetector)
    (frames : List Liveness.Frame) (h : 3 ≤ frames.length) :
    (Liveness.Detect d frames).reason ≠ "insufficient frames" := by
  unfold Liveness.Detect
  rw [if_neg (by omega)]
  simp only []
  apply ite_chain_fst_ne <;> decide

/-- C7: on a batch of at least 5 observations whose embeddings are all the
same vector (zero inter-frame variance and zero adjacent-frame distance, a
replayed static image), the consistency and movement checks both fail, and
`Detect` reports a reason other than "insufficient frames".  The two
threshold positivity hypotheses hold for every detector the program builds
(`NewDetector` fixes `consistencyMinVar = 0.001` and defaults the movement
threshold to 0.08). -/
theorem identical_embeddings_fail (d : Liveness.LivenessDetector)
    (frames : List Liveness.Frame) (v : List ℝ) (h5 : 5 ≤ frames.length)
    (hall : ∀ f ∈ frames, f.embedding = v)
    (hminvar : 0 < d.consistencyMinVar) (hmov : 0 < d.movementThreshold) :
    Liveness.CheckConsistency d (Liveness.extractEmbeddings frames) = false
    ∧ Liveness.DetectMovement d frames = false
    ∧ (Liveness.Detect d frames).reason ≠ "insufficient frames" := by
  have hE : ∀ e ∈ Liveness.extractEmbeddings frames, e = v := extractEmbeddings_const hall
  have hdist : ∀ x ∈ Liveness.adjacentDistances (Liveness.extractEmbeddings frames), x = 0 :=
    adjacentDistances_const v _ hE
  refine ⟨?_, ?_, detect_reason_of_enough_frames d frames (by omega)⟩
  · unfold Liveness.CheckConsistency
    by_cases hlen : (Liveness.extractEmbeddings frames).length < 3
    · rw [if_pos hlen]
    · rw [if_neg hlen]
      simp only []
      rw [listVar_zero hdist]
      rw [if_pos (div_pos hminvar (by norm_num))]
  · unfold Liveness.DetectMovement
    rw [if_neg (by omega)]
    by_cases hlen : (Liveness.extractEmbeddings frames).length < 3
    · rw [if_pos hlen]
    · rw [if_neg hlen]
      simp only []
      rw [List.sum_eq_zero hdist, zero_div]
      rw [if_neg (fun hcon => absurd hcon.1 (by linarith))]

/-- Witness for `identical_embeddings_fail` at five identical frames. -/
theorem identical_embeddings_fail_witness :
    5 ≤ constFrames.length ∧
    Liveness.CheckConsistency defaultDetector (Liveness.extractEmbeddings constFrames) = false ∧
    Liveness.DetectMovement defaultDetector constFrames = false ∧
    (Liveness.Detect defaultDetector constFrames).reason ≠ "insufficient frames" := by
  have hlen : 5 ≤ constFrames.length := by simp [constFrames]
  have hall : ∀ f ∈ constFrames, f.embedding = [0] := by
    intro f hf
    rw [List.eq_of_mem_replicate hf]
    rfl
  have h := identical_embeddings_fail defaultDetector constFrames [0] hlen hall
    (by norm_num [defaultDetector]) (by norm_num [defaultDetector])
  exact ⟨hlen, h.1, h.2.1, h.2.2⟩

/-- The yaw/pitch ratios of the oscillating-nose batch. -/
theorem noseFrames_ratios :
    Liveness.geometryRatios noseFrames =
      [(0.4, 0), (0.6, 0), (0.4, 0), (0.6, 0), (0.4, 0)] := by
  norm_num [Liveness.geometryRatios, noseFrames, noseFrame, List.filterMap_cons]

/-- The oscillating-nose batch passes the 3D geometry check: yaw variance
0.0096 plus pitch variance 0 exceeds the default depth threshold 0.00005. -/
theorem noseFrames_geometry :
    Liveness.Detect3DGeometry noConsistencyDetector noseFrames = true := by
  unfold Liveness.Detect3DGeometry
  rw [if_neg (by norm_num [noseFrames])]
  simp only [noseFrames_ratios]
  norm_num [Liveness.listVar, Liveness.listMean, noConsistencyDetector, noConsistencyCfg,
    Liveness.DefaultConfig]

/-- No embeddings are extracted from the faceless oscillating-nose batch. -/
theorem noseFrames_extract : Liveness.extractEmbeddings noseFrames = [] := by
  simp [Liveness.extractEmbeddings, noseFrames, noseFrame]

/-- The movement check fails on the oscillating-nose batch (no embeddings). -/
theorem noseFrames_movement :
    Liveness.DetectMovement noConsistencyDetector noseFrames = false := by
  unfold Liveness.DetectMovement
  rw [if_neg (by norm_num [noseFrames]), noseFrames_extract]
  norm_num

/-- The face-presence check fails on the faceless oscillating-nose batch. -/
theorem noseFrames_presence :
    Liveness.CheckFacePresence noConsistencyDetector noseFrames = false := by
  unfold Liveness.CheckFacePresence
  rw [if_neg (by norm_num [noseFrames])]
  simp only []
  rw [if_neg (by norm_num [noseFrames, noseFrame])]

/-- Full evaluation of `Detect` on the disabled-consistency detector and the
oscillating-nose batch: geometry passes, movement and presence fail, the
score 0.3/0.7 misses the 0.65 bar, and the reported reason is the
consistency one — even though the consistency check was never evaluated. -/
theorem noseFrames_detect :
    (Liveness.Detect noConsistencyDetector noseFrames).isLive = false ∧
    (Liveness.Detect noConsistencyDetector noseFrames).reason =
      "inconsistent face data (possible photo attack)" ∧
    (Liveness.Detect noConsistencyDetector noseFrames).requiresRetry = false := by
  unfold Liveness.Detect
  rw [if_neg (by norm_num [noseFrames])]
  simp only [noseFrames_geometry, noseFrames_movement, noseFrames_presence]
  norm_num [noConsistencyDetector, noConsistencyCfg, Liveness.DefaultConfig,
    Liveness.lookupCheck]
  simp

/-- C3 counterexample: with the consistency check disabled by configuration,
`Detect` on the oscillating-nose batch is not live, the geometry check (the
only preceding check) passed, and the first evaluated check that failed is
movement — yet the reported reason is the consistency one, because the
failure chain reads the missing "consistency" entry of the checks map as
`false`.  So the reason is not always the first failed evaluated check in
the claimed priority order. -/
theorem detect_reason_priority_counterexample :
    noConsistencyDetector.config.requireConsistency = false
    ∧ (Liveness.Detect noConsistencyDetector noseFrames).isLive = false
    ∧ Liveness.Detect3DGeometry noConsistencyDetector noseFrames = true
    ∧ Liveness.DetectMovement noConsistencyDetector noseFrames = false
    ∧ (Liveness.Detect noConsistencyDetector noseFrames).reason =
        "inconsistent face data (possible photo attack)"
    ∧ (Liveness.Detect noConsistencyDetector noseFrames).reason ≠
        "no movement detected (possible static image)" := by
  refine ⟨rfl, noseFrames_detect.1, noseFrames_geometry, noseFrames_movement,
    noseFrames_detect.2.1, ?_⟩
  rw [noseFrames_detect.2.1]
  decide

set_option maxHeartbeats 3200000 in
/-- C3 (amended): on a batch of at least 3 frames that is judged not live,
the reason is selected by the fixed priority order geometry → consistency →
movement → presence → generic over the outcomes recorded in the result's
checks map, where a key that was never recorded — the disabled consistency
check — reads as a failure (Go's zero-value map semantics); and
`requiresRetry` is set exactly in the face-presence reason case (all three
earlier lookups pass and presence fails), besides the insufficient-frames
case covered separately. -/
theorem detect_reason_priority (d : Liveness.LivenessDetector)
    (frames : List Liveness.Frame) (h : 3 ≤ frames.length) :
    ((Liveness.Detect d frames).isLive = false →
      (Liveness.Detect d frames).reason =
        (if Liveness.lookupCheck (Liveness.Detect d frames).checks "3d_geometry" = false
          then "face lacks 3D depth/movement (possible 2D photo)"
         else if Liveness.lookupCheck (Liveness.Detect d frames).checks "consistency" = false
          then "inconsistent face data (possible photo attack)"
         else if Liveness.lookupCheck (Liveness.Detect d frames).checks "movement" = false
          then "no movement detected (possible static image)"
         else if Liveness.lookupCheck (Liveness.Detect d frames).checks "face_present" = false
          then "face not consistently visible"
         else "liveness score below threshold"))
    ∧ ((Liveness.Detect d frames).requiresRetry = true ↔
        ((Liveness.Detect d frames).isLive = false
          ∧ Liveness.lookupCheck (Liveness.Detect d frames).checks "3d_geometry" = true
          ∧ Liveness.lookupCheck (Liveness.Detect d frames).checks "consistency" = true
          ∧ Liveness.lookupCheck (Liveness.Detect d frames).checks "movement" = true
          ∧ Liveness.lookupCheck (Liveness.Detect d frames).checks "face_present" = false)) := by
  have h3 : ¬ frames.length < 3 := by omega
  cases hrc : d.config.requireConsistency <;>
    cases hg : Liveness.Detect3DGeometry d frames <;>
    cases hc : Liveness.CheckConsistency d (Liveness.extractEmbeddings frames) <;>
    cases hm : Liveness.DetectMovement d frames <;>
    cases hp : Liveness.CheckFacePresence d frames <;>
    (unfold Liveness.Detect
     rw [if_neg h3]
     simp [hrc, hg, hc, hm, hp, Liveness.lookupCheck]) <;>
    split_ifs with hL <;>
    simp_all

/-- Witness for `detect_reason_priority`: applied to the disabled-consistency
detector on the oscillating-nose batch, which is judged not live. -/
theorem detect_reason_priority_witness :
    (Liveness.Detect noConsistencyDetector noseFrames).reason =
      (if Liveness.lookupCheck (Liveness.Detect noConsistencyDetector noseFrames).checks
            "3d_geometry" = false
        then "face lacks 3D depth/movement (possible 2D photo)"
       else if Liveness.lookupCheck (Liveness.Detect noConsistencyDetector noseFrames).checks
            "consistency" = false
        then "inconsistent face data (possible photo attack)"
       else if Liveness.lookupCheck (Liveness.Detect noConsistencyDetector noseFrames).checks
            "movement" = false
        then "no movement detected (possible static image)"
       else if Liveness.lookupCheck (Liveness.Detect noConsistencyDetector noseFrames).checks
            "face_present" = false
        then "face not consistently visible"
       else "liveness score below threshold") :=
  (detect_reason_priority noConsistencyDetector noseFrames
    (by norm_num [noseFrames])).1 noseFrames_detect.1
